import Mathlib

/-!
Verification of the country currency and exchange API.

Shallow embedding of the repository in Lean 4. Numeric values that the
program stores as machine floats are modelled as rationals; the random
multiplier drawn by the GDP derivation is an explicit parameter; the
database table is modelled as a list of rows; HTTP failure is modelled
with an explicit error value. The repository contains two lineages of
several operations: the wired application (main.py with services.py and
crud.py) and a router lineage (routers/countries.py, routers/status.py)
together with an alternative merge engine (external_apis.py); all are
embedded here under their source names.
-/

namespace CountryApi

/-- One element of the currencies array of an upstream country entry.
The code field may be missing from the JSON object. -/
structure CurrencyInfo where
  code : Option String
deriving DecidableEq, Repr

/-- An upstream country JSON entry as consumed by the merge code.
Every field except the currency list may be missing. -/
structure CountryEntry where
  name : Option String
  capital : Option String
  region : Option String
  population : Option Nat
  flag : Option String
  currencies : List CurrencyInfo
deriving DecidableEq, Repr

/-- The exchange-rate mapping fetched from the rate API: currency code
to units of that currency per US dollar. -/
def Rates : Type := List (String × ℚ)

/-- Dictionary lookup, modelling dict.get on the rate mapping. -/
def Rates.get (rs : Rates) (code : String) : Option ℚ :=
  List.lookup code rs

/-- The merged per-country dictionary built by
services.ExternalAPIService.get_processed_country_data. -/
structure ProcessedCountry where
  name : Option String
  capital : Option String
  region : Option String
  population : Nat
  currency_code : Option String
  exchange_rate : Option ℚ
  estimated_gdp : Option ℚ
  flag_url : Option String
  last_refreshed_at : Nat
deriving DecidableEq, Repr

/-- A stored row of the countries table (models.Country). The
store-assigned id column is omitted: no embedded operation reads it. -/
structure Country where
  name : String
  capital : Option String
  region : Option String
  population : Nat
  currency_code : Option String
  exchange_rate : Option ℚ
  estimated_gdp : Option ℚ
  flag_url : Option String
  last_refreshed_at : Nat
deriving DecidableEq, Repr

/-- An HTTP error outcome: status code and the error field of the
flat JSON error body raised through HTTPException. -/
structure HttpError where
  status : Nat
  error : String
deriving DecidableEq, Repr

/-! ### Rounding

Python round(x, 1) rounds to one decimal place with ties going to the
even tenth (round-half-to-even). Modelled exactly over the rationals. -/

/-- Round a rational to the nearest integer, ties to even
(the rounding mode of Python round). -/
def pyRoundInt (x : ℚ) : ℤ :=
  if x - ⌊x⌋ < 1/2 then ⌊x⌋
  else if 1/2 < x - ⌊x⌋ then ⌊x⌋ + 1
  else if Even ⌊x⌋ then ⌊x⌋ else ⌊x⌋ + 1

/-- Round a rational to one decimal place, ties to even: the model of
Python round(x, 1). -/
def round1 (x : ℚ) : ℚ :=
  (pyRoundInt (10 * x) : ℚ) / 10

/-! ### services.py: ExternalAPIService -/

/-- services.ExternalAPIService.extract_currency_code: the code of the
first entry of the currencies array, absent when the array is empty.
A first entry without a code field also yields absent (dict.get). -/
def extract_currency_code (currencies : List CurrencyInfo) : Option String :=
  match currencies with
  | [] => none
  | first_currency :: _ => first_currency.code

/-- services.ExternalAPIService.calculate_estimated_gdp with the
division operation abstracted as a parameter dv, so that theorems can
state that no division at all is performed on a given input. The
random multiplier m is the value drawn by random.uniform(1000, 2000).
Python truthiness: an absent rate and a zero rate both fail the guard,
as does any rate at most zero. -/
def calculate_estimated_gdp_div (dv : ℚ → ℚ → ℚ)
    (population : Nat) (exchange_rate : Option ℚ) (m : ℚ) : Option ℚ :=
  match exchange_rate with
  | none => none
  | some r =>
    if r ≤ 0 then none
    else some (round1 (dv ((population : ℚ) * m) r))

/-- services.ExternalAPIService.calculate_estimated_gdp: population
times a random multiplier in [1000, 2000) divided by the exchange
rate, rounded to one decimal place; absent for an absent, zero or
negative rate. -/
def calculate_estimated_gdp
    (population : Nat) (exchange_rate : Option ℚ) (m : ℚ) : Option ℚ :=
  calculate_estimated_gdp_div (fun a b => a / b) population exchange_rate m

/-- The loop body of services.ExternalAPIService.get_processed_country_data:
merge one upstream country entry with the fetched rate mapping. The
parameter m is the multiplier drawn for this entry and now the wall
clock read for last_refreshed_at. Python truthiness on the currency
code: an empty-string code skips the rate lookup. -/
def processCountry (rates : Rates) (m : ℚ) (now : Nat)
    (country : CountryEntry) : ProcessedCountry :=
  let currency_code := extract_currency_code country.currencies
  let exchange_rate : Option ℚ :=
    match currency_code with
    | none => none
    | some code => if code = "" then none else rates.get code
  let population := country.population.getD 0
  { name := country.name
    capital := country.capital
    region := country.region
    population := population
    currency_code := currency_code
    exchange_rate := exchange_rate
    estimated_gdp := calculate_estimated_gdp population exchange_rate m
    flag_url := country.flag
    last_refreshed_at := now }

/-! ### external_apis.py: ExternalAPIs.process_country_data

The alternative merge engine. It indexes name and population as
required keys (a missing one raises, modelled as none), does not round
the GDP, and writes the zero sentinel when no currency code exists.
Division by a zero rate raises ZeroDivisionError, modelled as none. -/

/-- external_apis.ExternalAPIs.process_country_data. -/
def process_country_data (exchange_rates : Rates) (m : ℚ)
    (country_data : CountryEntry) : Option ProcessedCountry :=
  match country_data.name, country_data.population with
  | some nm, some pop =>
    let currency_code : Option String :=
      match country_data.currencies with
      | [] => none
      | first :: _ => first.code
    match currency_code with
    | some code =>
      if code = "" then
        some
          { name := some nm, capital := country_data.capital
            region := country_data.region, population := pop
            currency_code := some code, exchange_rate := none
            estimated_gdp := some 0
            flag_url := country_data.flag, last_refreshed_at := 0 }
      else
        match exchange_rates.get code with
        | some rate =>
          if rate = 0 then none
          else some
            { name := some nm, capital := country_data.capital
              region := country_data.region, population := pop
              currency_code := some code, exchange_rate := some rate
              estimated_gdp := some ((pop : ℚ) * m / rate)
              flag_url := country_data.flag, last_refreshed_at := 0 }
        | none =>
          some
            { name := some nm, capital := country_data.capital
              region := country_data.region, population := pop
              currency_code := some code, exchange_rate := none
              estimated_gdp := none
              flag_url := country_data.flag, last_refreshed_at := 0 }
    | none =>
      some
        { name := some nm, capital := country_data.capital
          region := country_data.region, population := pop
          currency_code := none, exchange_rate := none
          estimated_gdp := some 0
          flag_url := country_data.flag, last_refreshed_at := 0 }
  | _, _ => none

/-! ### routers/countries.py: the router lineage -/

/-- Modelled from the spec: utils.compute_gdp is called by
routers/countries.py but the utils module is not under src/. The spec
glossary defines the derived quantity as population times a random
multiplier in [1000, 2000) divided by the exchange rate. -/
def compute_gdp (population : Nat) (m : ℚ) (exchange_rate : ℚ) : ℚ :=
  (population : ℚ) * m / exchange_rate

/-- The gdp expression of routers/countries.py line 29:
compute_gdp(population, exchange_rate) if exchange_rate else 0.
Python truthiness: an absent rate and a zero rate both take the zero
branch; any other rate, negative included, is passed to compute_gdp.
A missing population inside compute_gdp raises, modelled as none. -/
def routerGdp (population : Option Nat) (exchange_rate : Option ℚ)
    (m : ℚ) : Option ℚ :=
  match exchange_rate with
  | none => some 0
  | some r =>
    if r = 0 then some 0
    else
      match population with
      | none => none
      | some p => some (compute_gdp p m r)

/-- The record fields written by one iteration of the refresh loop of
routers/countries.py (lines 20-52): currency code from the first
currency entry by required key (a missing code field raises, modelled
as none), rate by membership lookup, gdp by the routerGdp expression. -/
structure RouterRecord where
  name : Option String
  capital : Option String
  region : Option String
  population : Option Nat
  currency_code : Option String
  exchange_rate : Option ℚ
  estimated_gdp : Option ℚ
  flag_url : Option String
deriving DecidableEq, Repr

/-- One iteration of the router refresh loop: the merged record that
is written to the store for one upstream entry, or none when the
iteration raises. -/
def routerMerge (exchange_data : Rates) (m : ℚ)
    (c : CountryEntry) : Option RouterRecord :=
  let currencyStep : Option (Option String) :=
    match c.currencies with
    | [] => some none
    | first :: _ =>
      match first.code with
      | none => none
      | some code => some (some code)
  match currencyStep with
  | none => none
  | some currency_code =>
    let exchange_rate : Option ℚ :=
      match currency_code with
      | none => none
      | some code => exchange_data.get code
    match routerGdp c.population exchange_rate m with
    | none => none
    | some gdp =>
      some
        { name := c.name, capital := c.capital, region := c.region
          population := c.population, currency_code := currency_code
          exchange_rate := exchange_rate, estimated_gdp := some gdp
          flag_url := c.flag }

/-! ### crud.py: repository over the countries table

The table is a list of rows. SQL ORDER BY is modelled with insertion
sort; the backend is MySQL, where NULL sorts below every value. -/

/-- Truthiness of an optional string parameter in a Python if:
absent and empty are falsy. -/
def truthy (s : Option String) : Bool :=
  match s with
  | none => false
  | some v => decide (v ≠ "")

/-- Order on nullable floats with NULL smallest, as MySQL sorts. -/
def optLeQ (a b : Option ℚ) : Bool :=
  match a, b with
  | none, _ => true
  | some _, none => false
  | some x, some y => decide (x ≤ y)

/-- ORDER BY estimated_gdp ASC. -/
def gdpAscLe (a b : Country) : Prop := optLeQ a.estimated_gdp b.estimated_gdp = true

/-- ORDER BY estimated_gdp DESC. -/
def gdpDescLe (a b : Country) : Prop := optLeQ b.estimated_gdp a.estimated_gdp = true

/-- ORDER BY population ASC. -/
def popAscLe (a b : Country) : Prop := a.population ≤ b.population

/-- ORDER BY population DESC. -/
def popDescLe (a b : Country) : Prop := b.population ≤ a.population

/-- ORDER BY name ASC, the default branch of crud.get_countries. -/
def byNameLe (a b : Country) : Prop := a.name ≤ b.name

/-- ORDER BY last_refreshed_at DESC, used by crud.get_latest_refresh_time. -/
def lastRefreshedDesc (a b : Country) : Prop :=
  b.last_refreshed_at ≤ a.last_refreshed_at

instance : DecidableRel gdpAscLe :=
  fun _ _ => inferInstanceAs (Decidable (_ = true))

instance : DecidableRel gdpDescLe :=
  fun _ _ => inferInstanceAs (Decidable (_ = true))

instance : DecidableRel popAscLe :=
  fun a b => inferInstanceAs (Decidable (a.population ≤ b.population))

instance : DecidableRel popDescLe :=
  fun a b => inferInstanceAs (Decidable (b.population ≤ a.population))

instance : DecidableRel byNameLe :=
  fun a b => inferInstanceAs (Decidable (a.name ≤ b.name))

instance : IsTotal Country byNameLe :=
  ⟨fun a b => le_total a.name b.name⟩

instance : IsTrans Country byNameLe :=
  ⟨fun _ _ _ h1 h2 => le_trans h1 h2⟩

instance : DecidableRel lastRefreshedDesc :=
  fun a b => inferInstanceAs (Decidable (b.last_refreshed_at ≤ a.last_refreshed_at))

instance : IsTotal Country lastRefreshedDesc :=
  ⟨fun a b => le_total b.last_refreshed_at a.last_refreshed_at⟩

instance : IsTrans Country lastRefreshedDesc :=
  ⟨fun _ _ _ h1 h2 => le_trans h2 h1⟩

/-- The sort dispatch of crud.get_countries lines 26-35: four
recognized keys, every other value falls to name ascending. -/
def crudSort (sort_by : Option String) (cs : List Country) : List Country :=
  if sort_by = some "gdp_desc" then cs.insertionSort gdpDescLe
  else if sort_by = some "gdp_asc" then cs.insertionSort gdpAscLe
  else if sort_by = some "population_desc" then cs.insertionSort popDescLe
  else if sort_by = some "population_asc" then cs.insertionSort popAscLe
  else cs.insertionSort byNameLe

/-- The region filter of crud.get_countries, applied only when the
parameter is truthy; SQL equality on the nullable column. -/
def applyRegionFilter (region : Option String) (cs : List Country) : List Country :=
  if truthy region then cs.filter (fun c => decide (c.region = region)) else cs

/-- The currency filter of crud.get_countries, applied only when the
parameter is truthy. -/
def applyCurrencyFilter (currency : Option String) (cs : List Country) : List Country :=
  if truthy currency then cs.filter (fun c => decide (c.currency_code = currency)) else cs

/-- crud.get_countries: filter by region and currency when the
parameter is truthy, sort, then paginate with offset and limit
(Python defaults: skip 0, limit 100). -/
def get_countries (store : List Country) (skip limit : Nat)
    (region currency sort_by : Option String) : List Country :=
  ((crudSort sort_by
      (applyCurrencyFilter currency (applyRegionFilter region store))).drop skip).take limit

/-- crud.get_country_by_name: first row whose name column equals the
argument exactly. -/
def get_country_by_name (store : List Country) (name : String) : Option Country :=
  store.find? (fun r => decide (r.name = name))

/-- crud.create_country: append a new row. -/
def create_country (store : List Country) (d : Country) : List Country :=
  store ++ [d]

/-- crud.update_country: when a row with the name exists, overwrite
every supplied field of every row matching the name; otherwise leave
the store unchanged. The refresh loop supplies all fields, so the
matched row becomes d. -/
def update_country (store : List Country) (name : String) (d : Country) :
    List Country :=
  match get_country_by_name store name with
  | none => store
  | some _ => store.map (fun r => if r.name = name then d else r)

/-- crud.delete_country: remove the first row matching the name,
reporting whether one was found. -/
def crud_delete_country (store : List Country) (name : String) :
    Bool × List Country :=
  match store.find? (fun r => decide (r.name = name)) with
  | some _ => (true, store.eraseP (fun r => decide (r.name = name)))
  | none => (false, store)

/-- crud.get_latest_refresh_time: order by last_refreshed_at
descending, take the first row, return its timestamp. -/
def get_latest_refresh_time (store : List Country) : Option Nat :=
  ((store.insertionSort lastRefreshedDesc).head?).map
    (fun c => c.last_refreshed_at)

/-- The aggregate MAX(last_refreshed_at) computed by routers/status.py:
a fold over the rows as the SQL aggregate scans them. -/
def statusLastRefresh (store : List Country) : Option Nat :=
  store.foldl
    (fun acc c =>
      match acc with
      | none => some c.last_refreshed_at
      | some t => some (max t c.last_refreshed_at))
    none

/-! ### main.py: the wired HTTP endpoints -/

/-- The sort_mapping dictionary lookup of main.get_countries: the four
recognized sort keys map to themselves, everything else to absent. -/
def sort_mapping (sort : Option String) : Option String :=
  match sort with
  | none => none
  | some s =>
    if s = "gdp_desc" then some "gdp_desc"
    else if s = "gdp_asc" then some "gdp_asc"
    else if s = "population_desc" then some "population_desc"
    else if s = "population_asc" then some "population_asc"
    else none

/-- GET /countries of main.py: map the sort parameter through
sort_mapping and call crud.get_countries with its default pagination
(skip 0, limit 100). -/
def getCountriesEndpoint (store : List Country)
    (region currency sort : Option String) : List Country :=
  get_countries store 0 100 region currency (sort_mapping sort)

/-- GET /countries/name of main.py: 404 with the fixed error body when
no row matches. -/
def getCountryEndpoint (store : List Country) (name : String) :
    Except HttpError Country :=
  match get_country_by_name store name with
  | none => Except.error ⟨404, "Country not found"⟩
  | some c => Except.ok c

/-- DELETE /countries/name of main.py: 404 with the same error body
when no row matches, otherwise delete through the crud layer. -/
def deleteCountryEndpoint (store : List Country) (name : String) :
    Except HttpError String × List Country :=
  match get_country_by_name store name with
  | none => (Except.error ⟨404, "Country not found"⟩, store)
  | some _ =>
    let res := crud_delete_country store name
    if res.1 then
      (Except.ok ("Country " ++ name ++ " deleted successfully"), res.2)
    else
      (Except.error ⟨500, "Failed to delete country"⟩, res.2)

/-- The merged dictionary turned into a row by the refresh loop of
main.py; the name column is non-null. -/
def countryOfProcessed (nm : String) (p : ProcessedCountry) : Country :=
  { name := nm, capital := p.capital, region := p.region
    population := p.population, currency_code := p.currency_code
    exchange_rate := p.exchange_rate, estimated_gdp := p.estimated_gdp
    flag_url := p.flag_url, last_refreshed_at := p.last_refreshed_at }

/-- The loop body of the refresh endpoint of main.py lines 109-117:
look up by name, update when found, insert otherwise. -/
def upsertOne (store : List Country) (d : Country) : List Country :=
  match get_country_by_name store d.name with
  | some _ => update_country store d.name d
  | none => create_country store d

/-- The whole upsert phase of one refresh: fold the loop body over the
merged records. -/
def refreshUpserts (store : List Country) (data : List Country) : List Country :=
  data.foldl upsertOne store

/-- The 503 outcome raised by the refresh endpoint of main.py. -/
def err503 : HttpError := ⟨503, "External data source unavailable"⟩

/-- The upsert loop of the refresh endpoint with its processed count; a
merged record without a name fails row validation, which the catch-all
of main.py surfaces as the 503 outcome with the store as committed so
far. -/
def refreshLoop : List Country → List ProcessedCountry → Nat →
    Except HttpError Nat × List Country
  | store, [], n => (Except.ok n, store)
  | store, p :: rest, n =>
    match p.name with
    | none => (Except.error err503, store)
    | some nm => refreshLoop (upsertOne store (countryOfProcessed nm p)) rest (n + 1)

/-- POST /countries/refresh of main.py: both fetches run and the whole
country list is merged before any upsert; a failure of either fetch
surfaces as the 503 outcome with the store untouched. The draws
function gives the multiplier drawn for each entry in order. -/
def refresh_countries (store : List Country)
    (countriesFetch : Except String (List CountryEntry))
    (ratesFetch : Except String Rates)
    (draws : Nat → ℚ) (now : Nat) : Except HttpError Nat × List Country :=
  match countriesFetch with
  | Except.error _ => (Except.error err503, store)
  | Except.ok countries_data =>
    match ratesFetch with
    | Except.error _ => (Except.error err503, store)
    | Except.ok rates =>
      refreshLoop store
        (List.mapIdx (fun i c => processCountry rates (draws i) now c) countries_data)
        0

/-! ### routers/countries.py: the router list endpoint -/

/-- Case-insensitive match of a nullable column against a value, the
model of the ilike filters of the router lineage. -/
def ilikeEq (column : Option String) (value : String) : Bool :=
  match column with
  | none => false
  | some s => decide (s.toLower = value.toLower)

/-- One optional ilike filter of the router list endpoint, applied
only when the parameter is truthy. -/
def routerFilter (f : Country → Option String) (v : Option String)
    (cs : List Country) : List Country :=
  match v with
  | none => cs
  | some s => if s = "" then cs else cs.filter (fun c => ilikeEq (f c) s)

/-- GET /countries of routers/countries.py: ilike filters, then an
order only for sort equal to gdp_desc; every other sort value leaves
the rows in store order. -/
def routerGetCountries (store : List Country)
    (region currency sort : Option String) : List Country :=
  let q := routerFilter (fun c => c.region) region store
  let q2 := routerFilter (fun c => c.currency_code) currency q
  if sort = some "gdp_desc" then q2.insertionSort gdpDescLe else q2

/-! ### Lemmas about rounding -/

theorem pyRoundInt_mem (x : ℚ) : pyRoundInt x = ⌊x⌋ ∨ pyRoundInt x = ⌊x⌋ + 1 := by
  unfold pyRoundInt
  split
  · exact Or.inl rfl
  · split
    · exact Or.inr rfl
    · split
      · exact Or.inl rfl
      · exact Or.inr rfl

theorem le_pyRoundInt (k : ℤ) (x : ℚ) (h : (k : ℚ) ≤ x) : k ≤ pyRoundInt x := by
  have hf : k ≤ ⌊x⌋ := Int.le_floor.mpr h
  rcases pyRoundInt_mem x with h1 | h1 <;> omega

theorem pyRoundInt_le (k : ℤ) (x : ℚ) (h : x ≤ (k : ℚ)) : pyRoundInt x ≤ k := by
  rcases eq_or_lt_of_le h with heq | hlt
  · subst heq
    have hf : ⌊(k : ℚ)⌋ = k := Int.floor_intCast k
    unfold pyRoundInt
    rw [hf]
    simp
  · have hf : ⌊x⌋ < k := by
      have := Int.floor_le_floor (le_of_lt hlt)
      rw [Int.floor_intCast] at this
      rcases eq_or_lt_of_le this with he | hl
      · exfalso
        have : (k : ℚ) ≤ x := by
          have := Int.floor_le x
          rw [he] at this
          exact this
        linarith
      · exact hl
    rcases pyRoundInt_mem x with h1 | h1 <;> omega

theorem round1_ge (k : ℤ) (x : ℚ) (h : (k : ℚ) ≤ 10 * x) : (k : ℚ) / 10 ≤ round1 x := by
  unfold round1
  have h1 := le_pyRoundInt k (10 * x) h
  have h2 : (k : ℚ) ≤ (pyRoundInt (10 * x) : ℚ) := by exact_mod_cast h1
  linarith

theorem round1_le (k : ℤ) (x : ℚ) (h : 10 * x ≤ (k : ℚ)) : round1 x ≤ (k : ℚ) / 10 := by
  unfold round1
  have h1 := pyRoundInt_le k (10 * x) h
  have h2 : (pyRoundInt (10 * x) : ℚ) ≤ (k : ℚ) := by exact_mod_cast h1
  linarith

theorem round1_tenths (x : ℚ) : ∃ z : ℤ, round1 x = (z : ℚ) / 10 :=
  ⟨pyRoundInt (10 * x), rfl⟩

/-! ### Claim theorems -/

/-- C4: for every country entry, the merged record's currency code
equals the code field of the first element of the entry's currency
list, and is absent when that list is empty. -/
theorem C4_currency_code_from_first (rates : Rates) (m : ℚ) (now : Nat)
    (c : CountryEntry) :
    (c.currencies = [] → (processCountry rates m now c).currency_code = none) ∧
    (∀ first rest, c.currencies = first :: rest →
      (processCountry rates m now c).currency_code = first.code) := by
  constructor
  · intro h
    simp [processCountry, extract_currency_code, h]
  · intro first rest h
    simp [processCountry, extract_currency_code, h]

theorem C4_currency_code_from_first_witness :
    (processCountry [] 1500 0
      { name := some "A", capital := none, region := none
        population := some 10, flag := none, currencies := [] }).currency_code
      = none ∧
    (processCountry [] 1500 0
      { name := some "B", capital := none, region := none
        population := some 10, flag := none
        currencies := [{ code := some "EUR" }] }).currency_code
      = some "EUR" :=
  ⟨(C4_currency_code_from_first [] 1500 0 _).1 rfl,
   (C4_currency_code_from_first [] 1500 0 _).2 { code := some "EUR" } [] rfl⟩

/-- C9: for every name matching no stored record, the GET endpoint
returns 404 with the error body Country not found, the DELETE endpoint
returns the identical shape, and the store is unchanged. -/
theorem C9_not_found_contract (store : List Country) (name : String)
    (h : ∀ r ∈ store, r.name ≠ name) :
    getCountryEndpoint store name = Except.error ⟨404, "Country not found"⟩ ∧
    deleteCountryEndpoint store name =
      (Except.error ⟨404, "Country not found"⟩, store) := by
  have hf : get_country_by_name store name = none := by
    apply List.find?_eq_none.mpr
    intro r hr
    simpa using h r hr
  exact ⟨by simp [getCountryEndpoint, hf], by simp [deleteCountryEndpoint, hf]⟩

theorem C9_not_found_contract_witness :
    getCountryEndpoint
        [{ name := "France", capital := some "Paris", region := some "Europe"
           population := 67000000, currency_code := some "EUR"
           exchange_rate := some (9/10), estimated_gdp := some 100
           flag_url := none, last_refreshed_at := 5 }] "Atlantis"
      = Except.error ⟨404, "Country not found"⟩ ∧
    deleteCountryEndpoint
        [{ name := "France", capital := some "Paris", region := some "Europe"
           population := 67000000, currency_code := some "EUR"
           exchange_rate := some (9/10), estimated_gdp := some 100
           flag_url := none, last_refreshed_at := 5 }] "Atlantis"
      = (Except.error ⟨404, "Country not found"⟩,
         [{ name := "France", capital := some "Paris", region := some "Europe"
            population := 67000000, currency_code := some "EUR"
            exchange_rate := some (9/10), estimated_gdp := some 100
            flag_url := none, last_refreshed_at := 5 }]) :=
  C9_not_found_contract _ "Atlantis" (by decide)

/-- C10: for every store state and every combination of region,
currency and sort parameters, the GET countries endpoint returns at
most 100 records, the default limit of the crud layer. -/
theorem C10_list_endpoint_cap (store : List Country)
    (region currency sort : Option String) :
    (getCountriesEndpoint store region currency sort).length ≤ 100 := by
  unfold getCountriesEndpoint get_countries
  simp only [List.length_take]
  exact Nat.min_le_left _ _

/-- C6: when either external fetch fails, the refresh endpoint fails
as a whole with the 503 upstream-unavailable outcome and the stored
record set is unchanged. -/
theorem C6_fetch_failure_atomic (store : List Country)
    (cf : Except String (List CountryEntry)) (rf : Except String Rates)
    (draws : Nat → ℚ) (now : Nat)
    (h : (∃ e, cf = Except.error e) ∨ (∃ e, rf = Except.error e)) :
    refresh_countries store cf rf draws now =
      (Except.error ⟨503, "External data source unavailable"⟩, store) := by
  rcases h with ⟨e, he⟩ | ⟨e, he⟩
  · subst he
    simp [refresh_countries, err503]
  · subst he
    cases cf <;> simp [refresh_countries, err503]

theorem C6_fetch_failure_atomic_witness :
    refresh_countries
        [{ name := "France", capital := none, region := none
           population := 1, currency_code := none, exchange_rate := none
           estimated_gdp := none, flag_url := none, last_refreshed_at := 3 }]
        (Except.error "timeout") (Except.ok []) (fun _ => 1500) 7
      = (Except.error ⟨503, "External data source unavailable"⟩,
         [{ name := "France", capital := none, region := none
            population := 1, currency_code := none, exchange_rate := none
            estimated_gdp := none, flag_url := none, last_refreshed_at := 3 }]) :=
  C6_fetch_failure_atomic _ _ _ _ _ (Or.inl ⟨"timeout", rfl⟩)

/-- C1 counterexample: the merge engine of external_apis.py does not
round the estimated GDP. With population 1, rate 1 and the realized
multiplier 32001/32 (an exact float in [1000, 2000)), the derived GDP
is 32001/32, which is not round(p times m over r, 1) for any
multiplier m, because every such rounded value is a whole number of
tenths and 32001/32 is not. -/
theorem C1_unrounded_counterexample :
    (process_country_data [("USD", 1)] (32001/32)
        { name := some "Ruritania", capital := none, region := none
          population := some 1, flag := none
          currencies := [{ code := some "USD" }] }).map
      (fun rec => rec.estimated_gdp) = some (some ((32001 : ℚ)/32)) ∧
    (1000 ≤ (32001/32 : ℚ) ∧ (32001/32 : ℚ) < 2000) ∧
    ∀ m : ℚ, round1 ((1 : ℚ) * m / 1) ≠ 32001/32 := by
  refine ⟨?_, ⟨by norm_num, by norm_num⟩, ?_⟩
  · simp [process_country_data, Rates.get, List.lookup]
  · intro m h
    obtain ⟨z, hz⟩ := round1_tenths ((1 : ℚ) * m / 1)
    rw [hz] at h
    have h32 : (z : ℚ) * 32 = 3200100 / 10 := by
      field_simp at h
      linarith
    have hq : (z : ℚ) * 32 = 320010 := by
      rw [h32]
      norm_num
    have hint : z * 32 = 320010 := by exact_mod_cast hq
    omega

/-- C1 amended: in the services derivation the estimated GDP equals
round(population times m over rate, 1) for the drawn multiplier m in
[1000, 2000), and for population 1000000 and rate 2 it lies in
[500000000, 1000000000]; the external_apis derivation returns the
unrounded population times m over rate, which for the same inputs lies
in the same interval. -/
theorem C1_gdp_formula_amended :
    (∀ (p : Nat) (r m : ℚ), 0 < r →
      calculate_estimated_gdp p (some r) m = some (round1 ((p : ℚ) * m / r))) ∧
    (∀ m : ℚ, 1000 ≤ m → m < 2000 →
      calculate_estimated_gdp 1000000 (some 2) m
          = some (round1 ((1000000 : ℚ) * m / 2)) ∧
      500000000 ≤ round1 ((1000000 : ℚ) * m / 2) ∧
      round1 ((1000000 : ℚ) * m / 2) ≤ 1000000000) ∧
    (∀ m : ℚ, 1000 ≤ m → m < 2000 →
      (process_country_data [("USD", 2)] m
          { name := some "Ruritania", capital := none, region := none
            population := some 1000000, flag := none
            currencies := [{ code := some "USD" }] }).map
        (fun rec => rec.estimated_gdp) = some (some ((1000000 : ℚ) * m / 2)) ∧
      500000000 ≤ (1000000 : ℚ) * m / 2 ∧
      (1000000 : ℚ) * m / 2 ≤ 1000000000) := by
  have hmain : ∀ (p : Nat) (r m : ℚ), 0 < r →
      calculate_estimated_gdp p (some r) m = some (round1 ((p : ℚ) * m / r)) := by
    intro p r m hr
    unfold calculate_estimated_gdp calculate_estimated_gdp_div
    simp [not_le.mpr hr]
  refine ⟨hmain, ?_, ?_⟩
  · intro m h1 h2
    have hlo : ((5000000000 : ℤ) : ℚ) ≤ 10 * ((1000000 : ℚ) * m / 2) := by
      push_cast
      linarith
    have hhi : 10 * ((1000000 : ℚ) * m / 2) ≤ ((10000000000 : ℤ) : ℚ) := by
      push_cast
      linarith
    have hge := round1_ge 5000000000 ((1000000 : ℚ) * m / 2) hlo
    have hle := round1_le 10000000000 ((1000000 : ℚ) * m / 2) hhi
    refine ⟨hmain 1000000 2 m (by norm_num), ?_, ?_⟩
    · push_cast at hge
      linarith
    · push_cast at hle
      linarith
  · intro m h1 h2
    refine ⟨?_, by linarith, by linarith⟩
    simp [process_country_data, Rates.get, List.lookup]

theorem C1_gdp_formula_amended_witness :
    calculate_estimated_gdp 3 (some 2) 1500 = some (round1 ((3 : ℚ) * 1500 / 2)) ∧
    (calculate_estimated_gdp 1000000 (some 2) 1500
        = some (round1 ((1000000 : ℚ) * 1500 / 2)) ∧
      500000000 ≤ round1 ((1000000 : ℚ) * 1500 / 2) ∧
      round1 ((1000000 : ℚ) * 1500 / 2) ≤ 1000000000) ∧
    ((process_country_data [("USD", 2)] 1500
        { name := some "Ruritania", capital := none, region := none
          population := some 1000000, flag := none
          currencies := [{ code := some "USD" }] }).map
      (fun rec => rec.estimated_gdp) = some (some ((1000000 : ℚ) * 1500 / 2)) ∧
      500000000 ≤ (1000000 : ℚ) * 1500 / 2 ∧
      (1000000 : ℚ) * 1500 / 2 ≤ 1000000000) :=
  ⟨C1_gdp_formula_amended.1 3 2 1500 (by norm_num),
   C1_gdp_formula_amended.2.1 1500 (by norm_num) (by norm_num),
   C1_gdp_formula_amended.2.2 1500 (by norm_num) (by norm_num)⟩

/-- C2 counterexample: in the router lineage, an absent exchange rate
does not yield an absent estimated GDP: the gdp expression of
routers/countries.py line 29 evaluates to the present zero sentinel. -/
theorem C2_router_zero_counterexample :
    routerGdp (some 5) none 1500 = some 0 ∧
    some (0 : ℚ) ≠ (none : Option ℚ) := by
  exact ⟨rfl, by simp⟩

/-- C2 amended: the services derivation returns an absent result for
an absent, zero or negative rate, performing no division at all (the
result is none for every division function), and a present result
forces a strictly positive rate; the router lineage instead yields the
present zero sentinel for an absent or zero rate and passes a negative
rate straight into the division. -/
theorem C2_nonpositive_rate_amended :
    (∀ (dv : ℚ → ℚ → ℚ) (p : Nat) (r m : ℚ), r ≤ 0 →
      calculate_estimated_gdp_div dv p (some r) m = none) ∧
    (∀ (dv : ℚ → ℚ → ℚ) (p : Nat) (m : ℚ),
      calculate_estimated_gdp_div dv p none m = none) ∧
    (∀ (dv : ℚ → ℚ → ℚ) (p : Nat) (r : Option ℚ) (m g : ℚ),
      calculate_estimated_gdp_div dv p r m = some g →
      ∃ x, r = some x ∧ 0 < x) ∧
    (∀ (p : Option Nat) (m : ℚ),
      routerGdp p none m = some 0 ∧ routerGdp p (some 0) m = some 0) ∧
    (∀ (p : Nat) (m x : ℚ), x < 0 →
      routerGdp (some p) (some x) m = some ((p : ℚ) * m / x)) := by
  refine ⟨?_, ?_, ?_, ?_, ?_⟩
  · intro dv p r m hr
    simp [calculate_estimated_gdp_div, hr]
  · intro dv p m
    simp [calculate_estimated_gdp_div]
  · intro dv p r m g hg
    cases r with
    | none => simp [calculate_estimated_gdp_div] at hg
    | some x =>
      by_cases hx : x ≤ 0
      · simp [calculate_estimated_gdp_div, hx] at hg
      · exact ⟨x, rfl, lt_of_not_le hx⟩
  · intro p m
    exact ⟨rfl, by simp [routerGdp]⟩
  · intro p m x hx
    simp [routerGdp, compute_gdp, ne_of_lt hx]

theorem C2_nonpositive_rate_amended_witness :
    calculate_estimated_gdp_div (fun _ _ => 12345) 5 (some (-3)) 1500 = none ∧
    calculate_estimated_gdp_div (fun _ _ => 12345) 5 none 1500 = none ∧
    routerGdp (some 5) none 1500 = some 0 ∧
    routerGdp (some 5) (some (-2)) 1500 = some ((5 : ℚ) * 1500 / (-2)) :=
  ⟨C2_nonpositive_rate_amended.1 (fun _ _ => 12345) 5 (-3) 1500 (by norm_num),
   C2_nonpositive_rate_amended.2.1 (fun _ _ => 12345) 5 1500,
   (C2_nonpositive_rate_amended.2.2.2.1 (some 5) 1500).1,
   C2_nonpositive_rate_amended.2.2.2.2 5 1500 (-2) (by norm_num)⟩

/-- C3 counterexample: in the router lineage a country whose currency
code is present but has no matching rate gets the present zero
sentinel as its merged estimated GDP, not an absent value. -/
theorem C3_router_zero_gdp_counterexample :
    routerMerge [("USD", 2)] 1500
        { name := some "Testland", capital := none, region := none
          population := some 5, flag := none
          currencies := [{ code := some "XYZ" }] }
      = some { name := some "Testland", capital := none, region := none
               population := some 5, currency_code := some "XYZ"
               exchange_rate := none, estimated_gdp := some 0
               flag_url := none } ∧
    some (0 : ℚ) ≠ (none : Option ℚ) := by
  exact ⟨rfl, by simp⟩

/-- C3 amended: in the services and external_apis derivations, a
country whose extracted currency code is present (and non-empty) but
is not a key of the rate mapping gets an absent merged estimated GDP;
the router lineage instead stores the zero sentinel. -/
theorem C3_missing_rate_amended (rates : Rates) (m : ℚ) (now : Nat)
    (c : CountryEntry) (code : String)
    (hcode : extract_currency_code c.currencies = some code)
    (hne : code ≠ "")
    (hmiss : rates.get code = none) :
    (processCountry rates m now c).estimated_gdp = none ∧
    (process_country_data rates m c).bind (fun rec => rec.estimated_gdp) = none := by
  cases hcur : c.currencies with
  | nil =>
    rw [hcur] at hcode
    simp [extract_currency_code] at hcode
  | cons first rest =>
    have hfirst : first.code = some code := by
      rw [hcur] at hcode
      simpa [extract_currency_code] using hcode
    constructor
    · simp [processCountry, extract_currency_code, hcur, hfirst, hne, hmiss,
        calculate_estimated_gdp, calculate_estimated_gdp_div]
    · cases hn : c.name with
      | none => simp [process_country_data, hn]
      | some nm =>
        cases hp : c.population with
        | none => simp [process_country_data, hn, hp]
        | some pop =>
          simp [process_country_data, hn, hp, hcur, hfirst, hne, hmiss]

theorem C3_missing_rate_amended_witness :
    (processCountry [("USD", 2)] 1500 9
        { name := some "Testland", capital := none, region := none
          population := some 5, flag := none
          currencies := [{ code := some "XYZ" }] }).estimated_gdp = none ∧
    (process_country_data [("USD", 2)] 1500
        { name := some "Testland", capital := none, region := none
          population := some 5, flag := none
          currencies := [{ code := some "XYZ" }] }).bind
      (fun rec => rec.estimated_gdp) = none :=
  C3_missing_rate_amended [("USD", 2)] 1500 9 _ "XYZ" rfl (by decide) rfl

/-! ### Lemmas about the upsert loop -/

theorem upsertOne_names (store : List Country) (d : Country) :
    (upsertOne store d).map Country.name =
      if d.name ∈ store.map Country.name then store.map Country.name
      else store.map Country.name ++ [d.name] := by
  unfold upsertOne
  cases hf : get_country_by_name store d.name with
  | none =>
    have hfind : store.find? (fun r => decide (r.name = d.name)) = none := hf
    have hmem : d.name ∉ store.map Country.name := by
      intro hmem
      obtain ⟨r, hr, hrn⟩ := List.mem_map.mp hmem
      have h2 := List.find?_eq_none.mp hfind r hr
      simp [hrn] at h2
    rw [if_neg hmem]
    simp [create_country]
  | some r =>
    have hfind : store.find? (fun s => decide (s.name = d.name)) = some r := hf
    have hrn : r.name = d.name := by
      have h2 := List.find?_some hfind
      simpa using h2
    have hmem : d.name ∈ store.map Country.name :=
      List.mem_map.mpr ⟨r, List.mem_of_find?_eq_some hfind, hrn⟩
    rw [if_pos hmem]
    unfold update_country
    rw [hf]
    rw [List.map_map]
    apply List.map_congr_left
    intro a _
    by_cases ha : a.name = d.name
    · simp [Function.comp, ha]
    · simp [Function.comp, ha]

theorem upsertOne_names_nodup (store : List Country) (d : Country)
    (h : (store.map Country.name).Nodup) :
    ((upsertOne store d).map Country.name).Nodup := by
  rw [upsertOne_names]
  split
  · exact h
  · next hmem =>
    simp [List.nodup_append, h, hmem]

theorem mem_upsertOne_names (store : List Country) (d : Country) (n : String) :
    n ∈ (upsertOne store d).map Country.name ↔
      n ∈ store.map Country.name ∨ n = d.name := by
  rw [upsertOne_names]
  split
  · next hmem =>
    constructor
    · exact Or.inl
    · rintro (h | h)
      · exact h
      · exact h ▸ hmem
  · simp

theorem refreshUpserts_names_nodup (data store : List Country)
    (h : (store.map Country.name).Nodup) :
    ((refreshUpserts store data).map Country.name).Nodup := by
  induction data generalizing store with
  | nil => exact h
  | cons d rest ih => exact ih _ (upsertOne_names_nodup store d h)

theorem mem_refreshUpserts_names_of_mem (data store : List Country) (n : String)
    (h : n ∈ store.map Country.name) :
    n ∈ (refreshUpserts store data).map Country.name := by
  induction data generalizing store with
  | nil => exact h
  | cons d rest ih =>
    exact ih _ ((mem_upsertOne_names store d n).mpr (Or.inl h))

theorem mem_refreshUpserts_names (data store : List Country) (n : String)
    (h : n ∈ data.map Country.name) :
    n ∈ (refreshUpserts store data).map Country.name := by
  induction data generalizing store with
  | nil => simp at h
  | cons d rest ih =>
    rcases List.mem_map.mp h with ⟨r, hr, hrn⟩
    rcases List.mem_cons.mp hr with h1 | h1
    · subst h1
      exact mem_refreshUpserts_names_of_mem rest _ n
        ((mem_upsertOne_names store r n).mpr (Or.inr hrn.symm))
    · exact ih _ (List.mem_map.mpr ⟨r, h1, hrn⟩)

/-- C5: starting from a store whose names are distinct (the unique
constraint on the name column), refreshing twice with identical merged
upstream data leaves a store with no duplicate names, and every
upstream country name is held by exactly one stored record. -/
theorem C5_refresh_idempotent_names (store data : List Country)
    (h : (store.map Country.name).Nodup) :
    ((refreshUpserts (refreshUpserts store data) data).map Country.name).Nodup ∧
    ∀ n ∈ data.map Country.name,
      List.count n ((refreshUpserts (refreshUpserts store data) data).map Country.name) = 1 := by
  have h1 := refreshUpserts_names_nodup data store h
  have h2 := refreshUpserts_names_nodup data _ h1
  refine ⟨h2, fun n hn => ?_⟩
  exact List.count_eq_one_of_mem h2 (mem_refreshUpserts_names data _ n hn)

theorem C5_refresh_idempotent_names_witness :
    ((refreshUpserts (refreshUpserts []
        [{ name := "France", capital := none, region := none, population := 1
           currency_code := none, exchange_rate := none, estimated_gdp := none
           flag_url := none, last_refreshed_at := 1 },
         { name := "Ghana", capital := none, region := none, population := 2
           currency_code := none, exchange_rate := none, estimated_gdp := none
           flag_url := none, last_refreshed_at := 1 }])
        [{ name := "France", capital := none, region := none, population := 1
           currency_code := none, exchange_rate := none, estimated_gdp := none
           flag_url := none, last_refreshed_at := 1 },
         { name := "Ghana", capital := none, region := none, population := 2
           currency_code := none, exchange_rate := none, estimated_gdp := none
           flag_url := none, last_refreshed_at := 1 }]).map Country.name).Nodup ∧
    List.count "France"
      ((refreshUpserts (refreshUpserts []
        [{ name := "France", capital := none, region := none, population := 1
           currency_code := none, exchange_rate := none, estimated_gdp := none
           flag_url := none, last_refreshed_at := 1 },
         { name := "Ghana", capital := none, region := none, population := 2
           currency_code := none, exchange_rate := none, estimated_gdp := none
           flag_url := none, last_refreshed_at := 1 }])
        [{ name := "France", capital := none, region := none, population := 1
           currency_code := none, exchange_rate := none, estimated_gdp := none
           flag_url := none, last_refreshed_at := 1 },
         { name := "Ghana", capital := none, region := none, population := 2
           currency_code := none, exchange_rate := none, estimated_gdp := none
           flag_url := none, last_refreshed_at := 1 }]).map Country.name) = 1 :=
  ⟨(C5_refresh_idempotent_names [] _ (by simp)).1,
   (C5_refresh_idempotent_names [] _ (by simp)).2 "France" (by decide)⟩

/-! ### Lemmas about the default sort -/

theorem sorted_names_insertionSort_take (l : List Country) (skip limit : Nat) :
    List.Sorted (fun a b : String => a ≤ b)
      ((((l.insertionSort byNameLe).drop skip).take limit).map Country.name) := by
  have h1 : List.Sorted byNameLe (l.insertionSort byNameLe) :=
    List.sorted_insertionSort byNameLe l
  have h2 : List.Sorted byNameLe (((l.insertionSort byNameLe).drop skip).take limit) :=
    List.Pairwise.sublist
      ((List.take_sublist _ _).trans (List.drop_sublist _ _)) h1
  rw [List.Sorted, List.pairwise_map]
  exact h2

/-- C7 counterexample: the router list endpoint applies no ordering
when the sort parameter is absent, so a store holding B before A comes
back in store order, not name ascending. -/
theorem C7_router_unsorted_counterexample :
    (routerGetCountries
        [{ name := "B", capital := none, region := none, population := 1
           currency_code := none, exchange_rate := none, estimated_gdp := none
           flag_url := none, last_refreshed_at := 0 },
         { name := "A", capital := none, region := none, population := 1
           currency_code := none, exchange_rate := none, estimated_gdp := none
           flag_url := none, last_refreshed_at := 0 }]
        none none none).map Country.name = ["B", "A"] ∧
    ¬ List.Sorted (fun a b : String => a ≤ b) ["B", "A"] := by
  constructor
  · rfl
  · intro hs
    have h := List.rel_of_sorted_cons hs "A" (by simp)
    have hno : ¬ ("B" : String) ≤ "A" := by
      simp
      decide
    exact hno h

/-- C7 amended: the crud-layer list operation, as invoked by the GET
countries endpoint of main.py, orders by name ascending whenever the
sort parameter is absent or unrecognized; the router-lineage list
endpoint applies no ordering at all in that case and returns the
filtered rows in store order. -/
theorem C7_default_sort_amended (store : List Country)
    (region currency sort : Option String)
    (hsort : ∀ s, sort = some s →
      s ≠ "gdp_desc" ∧ s ≠ "gdp_asc" ∧
      s ≠ "population_desc" ∧ s ≠ "population_asc") :
    List.Sorted (fun a b : String => a ≤ b)
      ((getCountriesEndpoint store region currency sort).map Country.name) ∧
    routerGetCountries store region currency sort =
      routerFilter (fun c => c.currency_code) currency
        (routerFilter (fun c => c.region) region store) := by
  have hm : sort_mapping sort = none := by
    cases sort with
    | none => rfl
    | some s =>
      obtain ⟨h1, h2, h3, h4⟩ := hsort s rfl
      simp [sort_mapping, h1, h2, h3, h4]
  have hne : sort ≠ some "gdp_desc" := by
    intro he
    exact (hsort _ he).1 rfl
  constructor
  · unfold getCountriesEndpoint
    rw [hm]
    exact sorted_names_insertionSort_take
      (applyCurrencyFilter currency (applyRegionFilter region store)) 0 100
  · unfold routerGetCountries
    rw [if_neg hne]

theorem C7_default_sort_amended_witness :
    (List.Sorted (fun a b : String => a ≤ b)
      ((getCountriesEndpoint
          [{ name := "B", capital := none, region := none, population := 1
             currency_code := none, exchange_rate := none, estimated_gdp := none
             flag_url := none, last_refreshed_at := 0 },
           { name := "A", capital := none, region := none, population := 1
             currency_code := none, exchange_rate := none, estimated_gdp := none
             flag_url := none, last_refreshed_at := 0 }]
          none none (some "alphabetical")).map Country.name)) ∧
    routerGetCountries
        [{ name := "B", capital := none, region := none, population := 1
           currency_code := none, exchange_rate := none, estimated_gdp := none
           flag_url := none, last_refreshed_at := 0 }]
        none none (some "alphabetical") =
      [{ name := "B", capital := none, region := none, population := 1
         currency_code := none, exchange_rate := none, estimated_gdp := none
         flag_url := none, last_refreshed_at := 0 }] :=
  ⟨(C7_default_sort_amended _ none none (some "alphabetical")
      (by intro s hs; cases hs; refine ⟨by decide, by decide, by decide, by decide⟩)).1,
   (C7_default_sort_amended _ none none (some "alphabetical")
      (by intro s hs; cases hs; refine ⟨by decide, by decide, by decide, by decide⟩)).2⟩

/-! ### Lemmas about the latest refresh timestamp -/

theorem statusFold_some (l : List Country) (a : Nat) :
    List.foldl
      (fun acc c =>
        match acc with
        | none => some c.last_refreshed_at
        | some t => some (max t c.last_refreshed_at))
      (some a) l
    = some (List.foldl (fun x c => max x c.last_refreshed_at) a l) := by
  induction l generalizing a with
  | nil => rfl
  | cons c rest ih => exact ih (max a c.last_refreshed_at)

theorem statusLastRefresh_cons (c : Country) (rest : List Country) :
    statusLastRefresh (c :: rest)
      = some (List.foldl (fun x d => max x d.last_refreshed_at)
          c.last_refreshed_at rest) :=
  statusFold_some rest c.last_refreshed_at

theorem le_foldlMax (l : List Country) (a : Nat) :
    a ≤ List.foldl (fun x c => max x c.last_refreshed_at) a l := by
  induction l generalizing a with
  | nil => exact le_refl a
  | cons c rest ih =>
    exact le_trans (le_max_left a c.last_refreshed_at)
      (ih (max a c.last_refreshed_at))

theorem foldlMax_mem (l : List Country) (a : Nat) :
    List.foldl (fun x c => max x c.last_refreshed_at) a l = a ∨
    ∃ c ∈ l,
      List.foldl (fun x c => max x c.last_refreshed_at) a l
        = c.last_refreshed_at := by
  induction l generalizing a with
  | nil => exact Or.inl rfl
  | cons c rest ih =>
    rcases ih (max a c.last_refreshed_at) with h | ⟨d, hd, hv⟩
    · rcases max_choice a c.last_refreshed_at with hm | hm
      · exact Or.inl (h.trans hm)
      · exact Or.inr ⟨c, List.mem_cons_self c rest, h.trans hm⟩
    · exact Or.inr ⟨d, List.mem_cons_of_mem c hd, hv⟩

theorem foldlMax_ge (l : List Country) :
    ∀ (a : Nat) (c : Country), c ∈ l →
      c.last_refreshed_at ≤
        List.foldl (fun x d => max x d.last_refreshed_at) a l := by
  induction l with
  | nil =>
    intro a c hc
    cases hc
  | cons d rest ih =>
    intro a c hc
    rcases List.mem_cons.mp hc with h | h
    · subst h
      exact le_trans (le_max_right a c.last_refreshed_at)
        (le_foldlMax rest (max a c.last_refreshed_at))
    · exact ih (max a d.last_refreshed_at) c h

theorem get_latest_refresh_time_spec (store : List Country) :
    (get_latest_refresh_time store = none ↔ store = []) ∧
    (∀ t, get_latest_refresh_time store = some t →
      t ∈ store.map Country.last_refreshed_at ∧
      ∀ u ∈ store.map Country.last_refreshed_at, u ≤ t) := by
  unfold get_latest_refresh_time
  cases hl : store.insertionSort lastRefreshedDesc with
  | nil =>
    have hstore : store = [] := by
      have hp := List.perm_insertionSort lastRefreshedDesc store
      rw [hl] at hp
      exact (hp.symm).eq_nil
    constructor
    · simp [hstore]
    · intro t ht
      simp at ht
  | cons h tail =>
    have hp := List.perm_insertionSort lastRefreshedDesc store
    rw [hl] at hp
    have hsorted := List.sorted_insertionSort lastRefreshedDesc store
    rw [hl] at hsorted
    have hne : store ≠ [] := by
      intro he
      rw [he] at hp
      exact List.cons_ne_nil h tail hp.eq_nil
    constructor
    · constructor
      · intro habs
        simp at habs
      · intro he
        exact absurd he hne
    · intro t ht
      have htv : h.last_refreshed_at = t := by simpa using ht
      subst htv
      constructor
      · exact List.mem_map.mpr ⟨h, hp.subset (List.mem_cons_self h tail), rfl⟩
      · intro u hu
        obtain ⟨r, hr, hrv⟩ := List.mem_map.mp hu
        have hrl : r ∈ h :: tail := hp.symm.subset hr
        rcases List.mem_cons.mp hrl with he | he
        · rw [← hrv, he]
        · have hrel := List.rel_of_sorted_cons hsorted r he
          rw [← hrv]
          exact hrel

theorem statusLastRefresh_spec (store : List Country) :
    (statusLastRefresh store = none ↔ store = []) ∧
    (∀ t, statusLastRefresh store = some t →
      t ∈ store.map Country.last_refreshed_at ∧
      ∀ u ∈ store.map Country.last_refreshed_at, u ≤ t) := by
  cases store with
  | nil =>
    constructor
    · simp [statusLastRefresh]
    · intro t ht
      simp [statusLastRefresh] at ht
  | cons c rest =>
    constructor
    · constructor
      · intro habs
        rw [statusLastRefresh_cons] at habs
        simp at habs
      · intro he
        simp at he
    · intro t ht
      rw [statusLastRefresh_cons] at ht
      have htv : List.foldl (fun x d => max x d.last_refreshed_at)
          c.last_refreshed_at rest = t := by simpa using ht
      constructor
      · rcases foldlMax_mem rest c.last_refreshed_at with h | ⟨d, hd, hv⟩
        · rw [← htv, h]
          exact List.mem_map.mpr ⟨c, List.mem_cons_self c rest, rfl⟩
        · rw [← htv, hv]
          exact List.mem_map.mpr ⟨d, List.mem_cons_of_mem c hd, rfl⟩
      · intro u hu
        obtain ⟨r, hr, hrv⟩ := List.mem_map.mp hu
        rcases List.mem_cons.mp hr with he | he
        · rw [← hrv, he, ← htv]
          exact le_foldlMax rest c.last_refreshed_at
        · rw [← hrv, ← htv]
          exact foldlMax_ge rest c.last_refreshed_at r he

/-- C8: the order-by-descending-take-first implementation of crud.py
and the aggregate MAX implementation of routers/status.py agree on
every store; both return absent exactly on the empty store, and a
present result is the maximum of the last-refreshed field over all
stored records. -/
theorem C8_latest_refresh_max (store : List Country) :
    get_latest_refresh_time store = statusLastRefresh store ∧
    (get_latest_refresh_time store = none ↔ store = []) ∧
    (∀ t, get_latest_refresh_time store = some t →
      t ∈ store.map Country.last_refreshed_at ∧
      ∀ u ∈ store.map Country.last_refreshed_at, u ≤ t) := by
  obtain ⟨hn1, hs1⟩ := get_latest_refresh_time_spec store
  obtain ⟨hn2, hs2⟩ := statusLastRefresh_spec store
  refine ⟨?_, hn1, hs1⟩
  cases h1 : get_latest_refresh_time store with
  | none =>
    have hstore : store = [] := hn1.mp h1
    rw [hn2.mpr hstore]
  | some t1 =>
    cases h2 : statusLastRefresh store with
    | none =>
      have hstore : store = [] := hn2.mp h2
      have h3 := hn1.mpr hstore
      rw [h1] at h3
      cases h3
    | some t2 =>
      obtain ⟨hm1, hub1⟩ := hs1 t1 h1
      obtain ⟨hm2, hub2⟩ := hs2 t2 h2
      rw [le_antisymm (hub2 t1 hm1) (hub1 t2 hm2)]

theorem C8_latest_refresh_max_witness :
    get_latest_refresh_time
        [{ name := "A", capital := none, region := none, population := 1
           currency_code := none, exchange_rate := none, estimated_gdp := none
           flag_url := none, last_refreshed_at := 3 },
         { name := "B", capital := none, region := none, population := 2
           currency_code := none, exchange_rate := none, estimated_gdp := none
           flag_url := none, last_refreshed_at := 7 }]
      = statusLastRefresh
        [{ name := "A", capital := none, region := none, population := 1
           currency_code := none, exchange_rate := none, estimated_gdp := none
           flag_url := none, last_refreshed_at := 3 },
         { name := "B", capital := none, region := none, population := 2
           currency_code := none, exchange_rate := none, estimated_gdp := none
           flag_url := none, last_refreshed_at := 7 }] ∧
    get_latest_refresh_time ([] : List Country) = none ∧
    7 ∈ ([{ name := "A", capital := none, region := none, population := 1
            currency_code := none, exchange_rate := none, estimated_gdp := none
            flag_url := none, last_refreshed_at := 3 },
          { name := "B", capital := none, region := none, population := 2
            currency_code := none, exchange_rate := none, estimated_gdp := none
            flag_url := none, last_refreshed_at := 7 }].map
        Country.last_refreshed_at) :=
  ⟨(C8_latest_refresh_max _).1,
   (C8_latest_refresh_max []).2.1.mpr rfl,
   ((C8_latest_refresh_max _).2.2 7 (by decide)).1⟩

end CountryApi
